import Mathlib

/-!
Verification development for the authentication and session-security subsystem
of an IoT tenant-management backend.

Shallow embedding of `app/utils/security.py`, `app/models/user.py`, and
`app/services/auth.py`: pure Python functions become Lean functions, the Redis
sorted set backing the rate limiter becomes a `Finset Int` of integer-second
timestamps (the set member is `str(timestamp)`, so a timestamp determines the
member), Argon2 salted hashing becomes an explicit `(salt, password)` pair
(a fresh random salt is drawn on every `hash_password` call, and equality of
hash strings holds only for equal salt and equal password), and Python
datetimes become integer epoch seconds (`timedelta(minutes=m)` is `60 * m`).
-/

namespace Cloud

/-- `str.lower()` restricted to the ASCII case mapping, which is all the
source exercises. -/
def pyLower (s : String) : String := String.mk (s.data.map Char.toLower)

/-- The `COMMON_PASSWORDS` set from `app/utils/security.py`, transcribed
verbatim (the Python literal repeats a few words; set membership is
unaffected, and `List.contains` matches it). -/
def COMMON_PASSWORDS : List String :=
  ["password", "123456", "123456789", "qwerty", "abc123", "password123",
   "admin", "letmein", "welcome", "monkey", "dragon", "master", "hello",
   "freedom", "whatever", "qazwsx", "trustno1", "jordan", "harley",
   "ranger", "iwantu", "jennifer", "hunter", "buster", "soccer",
   "baseball", "tiger", "charlie", "andrew", "michelle", "love",
   "sunshine", "jessica", "asshole", "696969", "amanda", "access",
   "computer", "cookie", "mickey", "starwars", "shadow", "maggie",
   "654321", "george", "carol", "michael", "jessie", "diamond",
   "oliver", "mercedes", "benjamin", "secret", "maverick", "fishing",
   "hockey", "cookie", "charlie", "gateway", "bailey", "raiders",
   "porn", "badass", "blowme", "spider", "green", "purple", "frank",
   "hacker", "michelle", "legend", "rocket", "thomas", "sweeper",
   "merlin", "casper", "midnight", "skywalker", "shelby", "orange",
   "888888", "ncc1701", "charles", "brian", "mark", "startrek",
   "sierra", "leather", "232323", "4444", "beavis", "bigcock",
   "happy", "sophie", "ladies", "naughty", "giants", "booty"]

/-- Regex class `[A-Z]`. -/
def isUpperAZ (c : Char) : Bool := 65 ≤ c.toNat && c.toNat ≤ 90

/-- Regex class `[a-z]`. -/
def isLowerAZ (c : Char) : Bool := 97 ≤ c.toNat && c.toNat ≤ 122

/-- Regex class `\d` (ASCII digits, which is all the source exercises). -/
def isDigit09 (c : Char) : Bool := 48 ≤ c.toNat && c.toNat ≤ 57

/-- Code points of the special-character class
`[!@#$%^&*()_+\-=\[\]{};:'"\\|,.<>/?]` used by the password validator,
listed in the order the regex names them. -/
def specialCharCodes : List Nat :=
  [33, 64, 35, 36, 37, 94, 38, 42, 40, 41, 95, 43, 45, 61, 91, 93, 123, 125,
   59, 39, 58, 34, 92, 124, 44, 46, 60, 62, 47, 63]

def isSpecialChar (c : Char) : Bool := specialCharCodes.contains c.toNat

/-- Does `needle` match the front of the second list? -/
def matchesFront : List Char → List Char → Bool
  | [], _ => true
  | _ :: _, [] => false
  | a :: as, b :: bs => a == b && matchesFront as bs

/-- Contiguous-substring test, the embedding of Python `needle in hay`. -/
def containsSeg (needle : List Char) : List Char → Bool
  | [] => matchesFront needle []
  | c :: rest => matchesFront needle (c :: rest) || containsSeg needle rest

/-- Regex `(.)\1{2,}`: some character occurs three or more times in a row. -/
def hasTripleRepeat : List Char → Bool
  | a :: b :: c :: rest => (a == b && b == c) || hasTripleRepeat (b :: c :: rest)
  | _ => false

/-- The alternation `(abc|bcd|...|xyz)` of the sequential-letters regex. -/
def sequential_letter_patterns : List String :=
  ["abc", "bcd", "cde", "def", "efg", "fgh", "ghi", "hij", "ijk", "jkl", "klm",
   "lmn", "mno", "nop", "opq", "pqr", "qrs", "rst", "stu", "tuv", "uvw", "vwx",
   "wxy", "xyz"]

/-- The alternation `(123|234|345|456|567|678|789|012)` of the
sequential-numbers regex. -/
def sequential_number_patterns : List String :=
  ["123", "234", "345", "456", "567", "678", "789", "012"]

/-- The `keyboard_patterns` list of the validator. -/
def keyboard_patterns : List String :=
  ["qwerty", "asdfgh", "zxcvbn", "qazwsx", "edcrfv", "tgbyhn"]

/-- Return shape of `validate_password_strength`.  The Python `score` is a
float built from `+1` and `+0.5` increments and is returned as `int(score)`;
we track it exactly in half points (`scoreHalf`) and return `scoreHalf / 2`. -/
structure PasswordValidation where
  valid : Bool
  score : Nat
  issues : List String
  suggestions : List String
  strength : String
deriving Repr, DecidableEq

/-- `validate_password_strength` from `app/utils/security.py`.  Issues and
suggestions are accumulated in the order the source appends them. -/
def validate_password_strength (password : String) : PasswordValidation :=
  let chars := password.data
  let lowered := (pyLower password).data
  let n := chars.length
  let lenIssues : List String :=
    if n < 12 then ["Password must be at least 12 characters long"] else []
  let lenScore : Nat := if n < 12 then 0 else if 16 ≤ n then 2 else 1
  let isCommon := COMMON_PASSWORDS.contains (pyLower password)
  let has_upper := chars.any isUpperAZ
  let has_lower := chars.any isLowerAZ
  let has_digit := chars.any isDigit09
  let has_special := chars.any isSpecialChar
  let repeatHit := hasTripleRepeat chars
  let seqAlphaHit := sequential_letter_patterns.any (fun p => containsSeg p.data lowered)
  let seqNumHit := sequential_number_patterns.any (fun p => containsSeg p.data chars)
  let keyboardHit := keyboard_patterns.any (fun p => containsSeg p.data lowered)
  let scoreHalf : Nat :=
    lenScore + (if has_upper then 2 else 0) + (if has_lower then 2 else 0) +
      (if has_digit then 2 else 0) + (if has_special then 2 else 0)
  let issues : List String :=
    lenIssues ++
    (if isCommon then ["Password is too common"] else []) ++
    (if has_upper then [] else ["Include at least one uppercase letter"]) ++
    (if has_lower then [] else ["Include at least one lowercase letter"]) ++
    (if has_digit then [] else ["Include at least one number"]) ++
    (if has_special then [] else ["Include at least one special character"]) ++
    (if repeatHit then ["Avoid repeated characters"] else []) ++
    (if seqAlphaHit then ["Avoid sequential characters"] else []) ++
    (if seqNumHit then ["Avoid sequential numbers"] else []) ++
    (if keyboardHit then ["Avoid keyboard patterns"] else [])
  let suggestions : List String :=
    (if isCommon then ["Choose a more unique password"] else []) ++
    (if has_upper then [] else ["Add uppercase letters (A-Z)"]) ++
    (if has_lower then [] else ["Add lowercase letters (a-z)"]) ++
    (if has_digit then [] else ["Add numbers (0-9)"]) ++
    (if has_special then [] else ["Add special characters (!@#$%^&*)"]) ++
    (if repeatHit then ["Don't repeat the same character more than twice"] else []) ++
    (if seqAlphaHit then ["Don't use sequential letters (abc, def, etc.)"] else []) ++
    (if seqNumHit then ["Don't use sequential numbers (123, 456, etc.)"] else []) ++
    (if keyboardHit then ["Don't use keyboard patterns (qwerty, asdfgh, etc.)"] else [])
  { valid := issues.isEmpty && decide (6 ≤ scoreHalf)
    score := scoreHalf / 2
    issues := issues
    suggestions := suggestions
    strength :=
      if scoreHalf < 4 then "weak" else if scoreHalf < 6 then "medium"
      else if scoreHalf < 8 then "strong" else "very_strong" }

/-- `check_password_breach`: membership of the lower-cased password in the
common-password set. -/
def check_password_breach (password : String) : Bool :=
  COMMON_PASSWORDS.contains (pyLower password)

theorem scoreHalf_valid_iff (b : Bool) (s : Nat) :
    (b && decide (6 ≤ s)) = (b && decide (3 ≤ s / 2)) := by
  have h : decide (6 ≤ s) = decide (3 ≤ s / 2) := decide_eq_decide.mpr (by omega)
  rw [h]

/-- C9: password validation satisfies `valid = (issues empty) AND (score ≥ 3)`
for every input (with `score` the returned integer score), and on the concrete
vectors: `"Str0ng!Passw0rd"` is valid with score ≥ 3; `"password"` is invalid
with a commonality issue; `"aaaaaaaaaaaa1!"` is invalid with a
repeated-character issue. -/
theorem validate_password_strength_valid_eq_and_vectors :
    (∀ pw : String,
      (validate_password_strength pw).valid =
        ((validate_password_strength pw).issues.isEmpty &&
          decide (3 ≤ (validate_password_strength pw).score)))
    ∧ ((validate_password_strength "Str0ng!Passw0rd").valid = true
        ∧ 3 ≤ (validate_password_strength "Str0ng!Passw0rd").score)
    ∧ ((validate_password_strength "password").valid = false
        ∧ "Password is too common" ∈ (validate_password_strength "password").issues)
    ∧ ((validate_password_strength "aaaaaaaaaaaa1!").valid = false
        ∧ "Avoid repeated characters" ∈ (validate_password_strength "aaaaaaaaaaaa1!").issues) := by
  refine ⟨fun pw => ?_, by decide, by decide, by decide⟩
  simp only [validate_password_strength]
  exact scoreHalf_valid_iff _ _

/-! ## RateLimiter (`app/utils/security.py`, class `RateLimiter`)

The Redis sorted set held under one rate-limit key is embedded as a
`Finset Int` of integer-second timestamps: `zadd(key, {str(t): t})` inserts
the member `str(t)` with score `t`, and since `str` is injective on integers
a member is determined by its timestamp.  `zcard` is `Finset.card`.  The
`expire` call only schedules whole-key deletion after `window_seconds` of
inactivity, which the eviction step already subsumes for the properties
proved here. -/

/-- `zremrangebyscore key lo hi`: drop the members whose score lies in the
closed interval `[lo, hi]`. -/
def zremrangebyscore (s : Finset Int) (lo hi : Int) : Finset Int :=
  s.filter (fun x => ¬ (lo ≤ x ∧ x ≤ hi))

/-- The dictionary returned by `RateLimiter.check_rate_limit`
(`remaining = max(0, max_attempts - attempts)` is Nat truncated subtraction). -/
structure RateLimitResult where
  allowed : Bool
  remaining : Nat
  reset_time : Int
  attempts : Nat
deriving Repr, DecidableEq

/-- `RateLimiter.check_rate_limit` on the sorted set of one key: evict entries
with score in `[0, now - window_seconds]`, record `now`, count, and report
`allowed = attempts < max_attempts` on the count that already includes the
newly recorded attempt.  Returns the result dictionary and the new set. -/
def check_rate_limit (s : Finset Int) (now : Int) (max_attempts window_seconds : Nat) :
    RateLimitResult × Finset Int :=
  let window_start : Int := now - (window_seconds : Int)
  let s2 := insert now (zremrangebyscore s 0 window_start)
  let attempts := s2.card
  ({ allowed := decide (attempts < max_attempts)
     remaining := max_attempts - attempts
     reset_time := now + (window_seconds : Int)
     attempts := attempts }, s2)

/-- `RateLimiter.increment_failed_attempt`: a bare `zadd` of `now`
(the `expire` refresh has no effect on the embedded set). -/
def increment_failed_attempt (s : Finset Int) (now : Int) : Finset Int :=
  insert now s

/-- Run `check_rate_limit` at each time of the list in order, collecting the
result dictionaries. -/
def run_rate_checks (s : Finset Int) (times : List Int) (max_attempts window_seconds : Nat) :
    List RateLimitResult × Finset Int :=
  times.foldl
    (fun acc t =>
      let r := check_rate_limit acc.2 t max_attempts window_seconds
      (acc.1 ++ [r.1], r.2))
    ([], s)

/-- C4 counterexample: with `max=5, window=900s` and a fresh key, five calls at
the distinct seconds 0,1,2,3,4 do NOT all pass — the 5th call records the 5th
in-window attempt and `5 < 5` is false, so it is already rate limited.  This
refutes "the first five CheckAndRecord calls within the window are allowed". -/
theorem check_rate_limit_fifth_call_rejected :
    ((run_rate_checks ∅ [0, 1, 2, 3, 4] 5 900).1.map RateLimitResult.allowed)
      = [true, true, true, true, false] := by decide

/-- C4 (amended): with `max=5, window=900s` and a fresh key, the first four
calls are allowed and the call that brings the in-window count to five — the
5th at distinct-second spacing — is rejected, as is the 6th; `allowed` is
`attempts < max_attempts` where `attempts` counts the newly recorded attempt;
and a key whose entries all lie outside the window behaves as fresh. -/
theorem check_rate_limit_window_behavior (s s' : Finset Int) (now t : Int) (m w : Nat)
    (hfresh : ∀ x ∈ s, 0 ≤ x ∧ x ≤ now - 900) :
    ((run_rate_checks ∅ [0, 1, 2, 3, 4, 5] 5 900).1.map RateLimitResult.allowed)
      = [true, true, true, true, false, false]
    ∧ ((check_rate_limit s' t m w).1.allowed = false ↔
        m ≤ (check_rate_limit s' t m w).2.card)
    ∧ (check_rate_limit s now 5 900).1.attempts = 1
    ∧ (check_rate_limit s now 5 900).1.allowed = true := by
  have hz : zremrangebyscore s 0 (now - 900) = ∅ := by
    apply Finset.filter_false_of_mem
    intro x hx
    have := hfresh x hx
    omega
  refine ⟨by decide, ?_, ?_, ?_⟩
  · simp [check_rate_limit, Nat.not_lt]
  · simp [check_rate_limit, hz]
  · simp [check_rate_limit, hz]

/-- Witness for `check_rate_limit_window_behavior`: the key `{0}` at
`now = 900` satisfies the staleness hypothesis. -/
theorem check_rate_limit_window_behavior_witness :
    ((run_rate_checks ∅ [0, 1, 2, 3, 4, 5] 5 900).1.map RateLimitResult.allowed)
      = [true, true, true, true, false, false]
    ∧ ((check_rate_limit {0} 10 5 900).1.allowed = false ↔
        5 ≤ (check_rate_limit {0} 10 5 900).2.card)
    ∧ (check_rate_limit {0} 900 5 900).1.attempts = 1
    ∧ (check_rate_limit {0} 900 5 900).1.allowed = true :=
  check_rate_limit_window_behavior {0} {0} 900 10 5 900 (by decide)

/-- One recording touch of a rate-limit key: either the check path (which also
evicts) or the explicit failure increment. -/
inductive RateLimiterOp where
  | check (max_attempts window_seconds : Nat)
  | incr
deriving Repr, DecidableEq

def applyRateLimiterOp (s : Finset Int) (now : Int) : RateLimiterOp → Finset Int
  | .check m w => (check_rate_limit s now m w).2
  | .incr => increment_failed_attempt s now

def applyRateLimiterOps (s : Finset Int) (now : Int) (ops : List RateLimiterOp) : Finset Int :=
  ops.foldl (fun cur op => applyRateLimiterOp cur now op) s

theorem applyRateLimiterOps_subset (now : Int) (ops : List RateLimiterOp) :
    ∀ s : Finset Int, applyRateLimiterOps s now ops ⊆ insert now s := by
  induction ops with
  | nil => intro s; exact Finset.subset_insert _ _
  | cons op rest ih =>
    intro s
    have hstep : applyRateLimiterOp s now op ⊆ insert now s := by
      cases op with
      | check m w =>
        simp only [applyRateLimiterOp, check_rate_limit]
        exact Finset.insert_subset_insert _ (Finset.filter_subset _ _)
      | incr =>
        simp [applyRateLimiterOp, increment_failed_attempt]
    calc applyRateLimiterOps (applyRateLimiterOp s now op) now rest
        ⊆ insert now (applyRateLimiterOp s now op) := ih _
      _ ⊆ insert now (insert now s) := Finset.insert_subset_insert _ hstep
      _ = insert now s := Finset.insert_idem _ _

/-- C10: all rate-limiter recordings that happen within the same integer
second write the same sorted-set member `str(now)`, so any burst of
`check_rate_limit` / `increment_failed_attempt` touches inside one second
increases the key's recorded attempt count by at most one. -/
theorem same_second_burst_counts_once (s : Finset Int) (now : Int)
    (ops : List RateLimiterOp) :
    (applyRateLimiterOps s now ops).card ≤ s.card + 1 :=
  le_trans (Finset.card_le_card (applyRateLimiterOps_subset now ops s))
    (Finset.card_insert_le _ _)

/-! ## Password hashing (`app/utils/security.py`, Argon2 via passlib)

`pwd_context.hash` draws a fresh random salt on every call and the produced
hash string encodes both salt and password material, so two hash strings are
equal only when both salt and password agree; `pwd_context.verify` re-derives
the hash from the stored salt, i.e. it checks the password and ignores which
salt was drawn.  The embedding makes the salt an explicit parameter. -/

structure Argon2Hash where
  salt : Nat
  pw : String
deriving Repr, DecidableEq

/-- `hash_password`, with the freshly drawn random salt explicit. -/
def hash_password (salt : Nat) (password : String) : Argon2Hash :=
  ⟨salt, password⟩

/-- `verify_password`: Argon2 verification recovers the salt from the stored
hash, so only the password is compared. -/
def verify_password (plain : String) (h : Argon2Hash) : Bool :=
  plain == h.pw

/-! ## User model (`app/models/user.py`, class `User`)

Only the fields the authentication subsystem reads or writes are embedded;
datetimes are epoch seconds and the JSON-encoded `password_history` column is
its decoded list. -/

structure UserState where
  is_active : Bool := true
  mfa_enabled : Bool := false
  mfa_setup_completed : Bool := false
  email_verified : Bool := false
  failed_login_attempts : Nat := 0
  locked_until : Option Int := none
  password_changed_at : Option Int := none
  hashed_password : Argon2Hash
  password_history : List Argon2Hash := []
  last_login : Option Int := none
  last_login_ip : Option String := none
  last_login_user_agent : Option String := none
deriving Repr, DecidableEq

/-- `User.is_locked`. -/
def is_locked (u : UserState) (now : Int) : Bool :=
  match u.locked_until with
  | none => false
  | some lu => decide (now < lu)

/-- `User.is_password_expired` with the default `max_age_days = 90`
(90 days = 7776000 seconds). -/
def is_password_expired (u : UserState) (now : Int) : Bool :=
  match u.password_changed_at with
  | none => true
  | some c => decide (c + 7776000 < now)

/-- `User.is_password_in_history`: plain membership of the hash string. -/
def is_password_in_history (u : UserState) (h : Argon2Hash) : Bool :=
  u.password_history.contains h

/-- `User.add_password_to_history` with the default `max_history = 5`:
append if absent, then keep the last five (`history[-max_history:]`). -/
def add_password_to_history (u : UserState) (h : Argon2Hash) : UserState :=
  if u.password_history.contains h then u
  else
    let history := u.password_history ++ [h]
    let history := if 5 < history.length then history.drop (history.length - 5) else history
    { u with password_history := history }

/-- The progressive lockout table of `User.increment_failed_login_attempts`,
in minutes. -/
def lockout_durations : List Nat := [5, 10, 15, 30, 60]

/-- `User.increment_failed_login_attempts`: bump the counter and set
`locked_until = now + minutes`, where the minutes come from the table at the
new counter value, capped at 60. -/
def increment_failed_login_attempts (u : UserState) (now : Int) : UserState :=
  let failed := u.failed_login_attempts + 1
  let lockout_minutes : Nat :=
    if failed ≤ lockout_durations.length then lockout_durations.getD (failed - 1) 60
    else 60
  { u with
    failed_login_attempts := failed
    locked_until := some (now + 60 * (lockout_minutes : Int)) }

/-- `User.record_successful_login`. -/
def record_successful_login (u : UserState) (now : Int) (ip user_agent : String) : UserState :=
  { u with
    last_login := some now
    last_login_ip := some ip
    last_login_user_agent := some user_agent
    failed_login_attempts := 0
    locked_until := none }

/-- The dictionary returned by `User.can_login`. -/
structure CanLoginResult where
  can_login : Bool
  reason : Option String := none
  requires_action : Option String := none
  lockout_remaining_minutes : Option Nat := none
  requires_mfa : Option Bool := none
  requires_email_verification : Option Bool := none
deriving Repr, DecidableEq

/-- `User.can_login`.  In the locked branch the remaining lockout is positive,
so Python's truncating `int(total_seconds / 60)` agrees with `Nat` division on
`(locked_until - now).toNat`. -/
def can_login (u : UserState) (now : Int) : CanLoginResult :=
  if ¬ u.is_active then
    { can_login := false, reason := some "Account is deactivated",
      requires_action := some "contact_admin" }
  else if is_locked u now then
    match u.locked_until with
    | some lu =>
      let remaining_minutes : Nat := (lu - now).toNat / 60
      { can_login := false
        reason := some ("Account is locked for " ++ toString remaining_minutes ++ " minutes")
        requires_action := some "wait"
        lockout_remaining_minutes := some remaining_minutes }
    | none =>
      { can_login := false, reason := some "Account is locked",
        requires_action := some "wait" }
  else if is_password_expired u now then
    { can_login := false, reason := some "Password has expired",
      requires_action := some "change_password" }
  else if u.mfa_enabled ∧ ¬ u.mfa_setup_completed then
    { can_login := false, reason := some "MFA setup required",
      requires_action := some "setup_mfa" }
  else
    { can_login := true, requires_mfa := some u.mfa_enabled,
      requires_email_verification := some (¬ u.email_verified) }

/-- Fold consecutive failed logins (each with its own clock reading) over a
user record. -/
def apply_failed_logins (u : UserState) (ts : List Int) : UserState :=
  ts.foldl increment_failed_login_attempts u

theorem apply_failed_logins_count (ts : List Int) :
    ∀ u : UserState,
      (apply_failed_logins u ts).failed_login_attempts =
        u.failed_login_attempts + ts.length := by
  induction ts with
  | nil => intro u; rfl
  | cons t rest ih =>
    intro u
    have h := ih (increment_failed_login_attempts u t)
    simp only [apply_failed_logins, List.foldl_cons] at h ⊢
    rw [h]
    simp only [increment_failed_login_attempts, List.length_cons]
    omega

/-- C6: starting from a clean failure counter, after the k-th consecutive
failed login (the last one at clock `t`) the counter equals `k` and the
account is locked until `t` plus `durations[min(k,5) - 1]` minutes, with
`durations = [5, 10, 15, 30, 60]` (minutes are 60 seconds each). -/
theorem increment_failed_login_attempts_progression
    (u : UserState) (ts : List Int) (t : Int)
    (h : u.failed_login_attempts = 0) :
    (apply_failed_logins u (ts ++ [t])).failed_login_attempts = ts.length + 1
    ∧ (apply_failed_logins u (ts ++ [t])).locked_until =
        some (t + 60 * ((lockout_durations.getD (min (ts.length + 1) 5 - 1) 60 : Nat) : Int)) := by
  have hcnt : (apply_failed_logins u ts).failed_login_attempts = ts.length := by
    rw [apply_failed_logins_count, h, Nat.zero_add]
  have happ : apply_failed_logins u (ts ++ [t]) =
      increment_failed_login_attempts (apply_failed_logins u ts) t := by
    simp [apply_failed_logins, List.foldl_append]
  rw [happ]
  simp only [increment_failed_login_attempts, hcnt]
  refine ⟨by trivial, ?_⟩
  by_cases h5 : ts.length + 1 ≤ lockout_durations.length
  · have hmin : min (ts.length + 1) 5 = ts.length + 1 := by
      simp only [lockout_durations, List.length_cons, List.length_nil] at h5
      omega
    rw [hmin]
    simp [h5]
  · have h5' : ¬ ts.length + 1 ≤ 5 := by
      simpa [lockout_durations] using h5
    have hmin : min (ts.length + 1) 5 = 5 := by omega
    rw [hmin]
    simp only [h5, if_false]
    rfl

/-- Witness for `increment_failed_login_attempts_progression`: three failures
at clocks 5, 17, 100 leave the counter at 3 and the account locked until
`100 + 15 minutes`. -/
theorem increment_failed_login_attempts_progression_witness :
    (apply_failed_logins { hashed_password := ⟨0, "pw"⟩ } ([(5 : Int), 17] ++ [100])).failed_login_attempts = 3
    ∧ (apply_failed_logins { hashed_password := ⟨0, "pw"⟩ } ([(5 : Int), 17] ++ [100])).locked_until =
        some (100 + 60 * ((lockout_durations.getD (min 3 5 - 1) 60 : Nat) : Int)) :=
  increment_failed_login_attempts_progression { hashed_password := ⟨0, "pw"⟩ } [5, 17] 100 rfl

/-! ## Password change (`app/services/auth.py`, `AuthenticationService.change_password`) -/

/-- The dictionary returned by `change_password`. -/
structure ChangePasswordResult where
  success : Bool
  error : Option String := none
  issues : List String := []
  suggestions : List String := []
  message : Option String := none
deriving Repr, DecidableEq

/-- `AuthenticationService.change_password`.  `fresh_salt` is the random salt
`hash_password` draws for the supplied new password.  Returns the result
dictionary and the (possibly updated) user record. -/
def change_password (u : UserState) (current_password new_password : String)
    (fresh_salt : Nat) (now : Int) : ChangePasswordResult × UserState :=
  if ¬ verify_password current_password u.hashed_password then
    ({ success := false, error := some "Current password is incorrect" }, u)
  else
    let password_validation := validate_password_strength new_password
    if ¬ password_validation.valid then
      ({ success := false
         error := some "Password does not meet security requirements"
         issues := password_validation.issues
         suggestions := password_validation.suggestions }, u)
    else
      let new_password_hash := hash_password fresh_salt new_password
      if is_password_in_history u new_password_hash then
        ({ success := false
           error := some "Password has been used recently. Please choose a different password." }, u)
      else if check_password_breach new_password then
        ({ success := false
           error := some "Password has been compromised. Please choose a different password." }, u)
      else
        let old_password_hash := u.hashed_password
        let u2 := { u with
          hashed_password := new_password_hash
          password_changed_at := some now }
        let u3 := add_password_to_history u2 old_password_hash
        ({ success := true, message := some "Password changed successfully" }, u3)

/-- The concrete account for the C3 failing input: its history holds the
Argon2 hash, drawn under salt 1, of the strong password `Gq1!mzrTvw849`. -/
def historyReuseUser : UserState :=
  { hashed_password := ⟨0, "OldPw!Q9wmrtk7"⟩
    password_changed_at := some 0
    password_history := [hash_password 1 "Gq1!mzrTvw849"] }

/-- C3: the history-reuse check hashes the supplied new password with a fresh
random salt and tests string membership of that hash in the bounded history
list.  Because the fresh salt (here 2) differs from the salt under which the
very same password was put into the history (salt 1), the membership test
misses and the change SUCCEEDS — the reuse is not rejected, although the new
password passes strength validation and a hash of it sits in the history.
This exhibits the divergence between the code and the claimed rejection. -/
theorem change_password_history_reuse_not_rejected :
    (validate_password_strength "Gq1!mzrTvw849").valid = true
    ∧ verify_password "Gq1!mzrTvw849" (hash_password 1 "Gq1!mzrTvw849") = true
    ∧ historyReuseUser.password_history.contains (hash_password 1 "Gq1!mzrTvw849") = true
    ∧ (change_password historyReuseUser "OldPw!Q9wmrtk7" "Gq1!mzrTvw849" 2 1000).1.success = true
    ∧ (change_password historyReuseUser "OldPw!Q9wmrtk7" "Gq1!mzrTvw849" 2 1000).1.error = none := by
  decide

/-! ## JWT tokens (`app/utils/security.py` with `app/core/config.py`)

A signed token is embedded as its payload together with the signing key and
algorithm; `jwt.decode` succeeds on the signature check exactly when key and
algorithm match.  PyJWT's default claim validation is modelled as documented:
a token is expired when `exp < now`, and decoding a token that carries an
`aud` claim while the caller supplies no `audience` parameter raises
`InvalidAudienceError` (so the decode fails).  No `issuer` parameter is
passed anywhere in the source, so the `iss` claim is not checked. -/

def SECRET_KEY : String := "52Xd8XzbHYkXeD2_-3Xy_WXZa8y-W2BHMdDlO3VQVNw"

def ALGORITHM : String := "HS256"

def ACCESS_TOKEN_EXPIRE_MINUTES : Nat := 30

/-- A decoded JWT payload: the caller-supplied claims plus the registered
claims `create_access_token` adds (`type` is a reserved word in Lean, hence
`token_type`). -/
structure JWTPayload where
  data : List (String × String)
  iat : Int
  iss : String
  aud : Option String
  token_type : String
  exp : Int
deriving Repr, DecidableEq

/-- A signed, encoded JWT. -/
structure JWTToken where
  payload : JWTPayload
  key : String
  alg : String
deriving Repr, DecidableEq

/-- `jwt.decode(token, key, algorithms=algs, audience=audience)` at clock
`now`, with PyJWT's default options. -/
def jwt_decode (t : JWTToken) (key : String) (algs : List String)
    (audience : Option String) (now : Int) : Option JWTPayload :=
  if t.key ≠ key ∨ t.alg ∉ algs then none
  else if t.payload.exp < now then none
  else
    match audience, t.payload.aud with
    | none, none => some t.payload
    | none, some a => if a = "" then some t.payload else none
    | some _, none => none
    | some a, some b => if a = b then some t.payload else none

/-- `create_access_token(data, expires_delta)` at clock `now`
(`expires_delta` in seconds; `None` falls back to
`ACCESS_TOKEN_EXPIRE_MINUTES`). -/
def create_access_token (data : List (String × String)) (now : Int)
    (expires_delta : Option Int) : JWTToken :=
  { payload :=
      { data := data
        iat := now
        iss := "SmartSecurity Cloud"
        aud := some "SmartSecurity Users"
        token_type := "access"
        exp := now + (match expires_delta with
          | some d => d
          | none => 60 * (ACCESS_TOKEN_EXPIRE_MINUTES : Int)) }
    key := SECRET_KEY
    alg := ALGORITHM }

/-- `create_refresh_token(data, expires_delta)` at clock `now` (`None` falls
back to 7 days). -/
def create_refresh_token (data : List (String × String)) (now : Int)
    (expires_delta : Option Int) : JWTToken :=
  { payload :=
      { data := data
        iat := now
        iss := "SmartSecurity Cloud"
        aud := some "SmartSecurity Users"
        token_type := "refresh"
        exp := now + (match expires_delta with
          | some d => d
          | none => 7 * 86400) }
    key := SECRET_KEY
    alg := ALGORITHM }

/-- `verify_token`: decode with the shared secret and algorithm, with neither
an `audience` nor an `issuer` argument; every decode exception becomes
`None`. -/
def verify_token (t : JWTToken) (now : Int) : Option JWTPayload :=
  jwt_decode t SECRET_KEY [ALGORITHM] none now

/-- C1: `verify_token` returns `None` for EVERY token minted by
`create_access_token` — even one verified immediately, at the clock of its
creation.  The minted token carries `aud = "SmartSecurity Users"`, and
`verify_token` decodes without an `audience` argument, so PyJWT raises
`InvalidAudienceError` and the round-trip never yields the claims.  (A token
whose `exp` has elapsed also yields `None`, as the claim states, but so does
every fresh one.)  This contradicts the claimed round-trip and the
repository's own test `test_access_token_creation_and_verification`. -/
theorem verify_token_of_create_access_token_is_none
    (data : List (String × String)) (now : Int) (expires_delta : Option Int) (t : Int) :
    verify_token (create_access_token data now expires_delta) t = none := by
  simp only [verify_token, create_access_token, jwt_decode]
  split
  · rfl
  · split
    · rfl
    · rfl

/-! ## Session validation (`app/services/auth.py`, `AuthenticationService.validate_session`
with the `UserSession` model of `app/models/user.py`) -/

/-- The columns of a `UserSession` row that `validate_session` reads or
writes. -/
structure UserSessionRec where
  session_token : JWTToken
  is_active : Bool
  expires_at : Int
  last_activity : Int
deriving Repr, DecidableEq

/-- The database slice `validate_session` queries: users by id, plus the
session table. -/
structure SessionDB where
  users : String → Option UserState
  sessions : List UserSessionRec

/-- The query `UserSession.session_token == token AND is_active == True`
(`scalar_one_or_none` on a unique token column: the first match). -/
def find_active_session (l : List UserSessionRec) (token : JWTToken) : Option UserSessionRec :=
  l.find? (fun s => s.session_token == token && s.is_active)

/-- `UserSession.is_expired`. -/
def session_is_expired (s : UserSessionRec) (now : Int) : Bool :=
  decide (s.expires_at < now)

/-- `AuthenticationService.validate_session`: verify the token, read its
`sub` claim (Python treats a missing or empty `sub` as falsy), look up an
active user, look up the matching active non-expired session, refresh its
`last_activity`, and return the user.  Returns the outcome together with the
updated session table. -/
def validate_session (db : SessionDB) (access_token : JWTToken) (now : Int) :
    Option UserState × List UserSessionRec :=
  match verify_token access_token now with
  | none => (none, db.sessions)
  | some payload =>
    match payload.data.lookup "sub" with
    | none => (none, db.sessions)
    | some user_id =>
      if user_id = "" then (none, db.sessions)
      else
        match db.users user_id with
        | none => (none, db.sessions)
        | some user =>
          if ¬ user.is_active then (none, db.sessions)
          else
            match find_active_session db.sessions access_token with
            | none => (none, db.sessions)
            | some user_session =>
              if session_is_expired user_session now then (none, db.sessions)
              else
                (some user,
                 db.sessions.map (fun s =>
                   if s.session_token == access_token && s.is_active then
                     { s with last_activity := now }
                   else s))

theorem verify_token_none_of_bad_signature (t : JWTToken) (now : Int)
    (h : t.key ≠ SECRET_KEY ∨ t.alg ≠ ALGORITHM) :
    verify_token t now = none := by
  unfold verify_token jwt_decode
  have h' : t.key ≠ SECRET_KEY ∨ t.alg ∉ [ALGORITHM] := by
    rcases h with h1 | h2
    · exact Or.inl h1
    · exact Or.inr (by simpa using h2)
  rw [if_pos h']

theorem verify_token_none_of_expired (t : JWTToken) (now : Int)
    (h : t.payload.exp < now) :
    verify_token t now = none := by
  unfold verify_token jwt_decode
  by_cases hc : t.key ≠ SECRET_KEY ∨ t.alg ∉ [ALGORITHM]
  · rw [if_pos hc]
  · rw [if_neg hc, if_pos h]

theorem validate_session_none_of_verify_none (db : SessionDB) (tok : JWTToken) (now : Int)
    (h : verify_token tok now = none) :
    (validate_session db tok now).1 = none := by
  unfold validate_session
  rw [h]

theorem validate_session_none_of_session_check (db : SessionDB) (tok : JWTToken) (now : Int)
    (h : ∀ s, find_active_session db.sessions tok = some s → session_is_expired s now = true) :
    (validate_session db tok now).1 = none := by
  unfold validate_session
  split
  · rfl
  · split
    · rfl
    · split
      · rfl
      · split
        · rfl
        · split
          · rfl
          · split
            · rfl
            · split
              · rfl
              · exact absurd (h _ (by assumption)) (by assumption)

theorem find_active_session_none_of_all_inactive (l : List UserSessionRec) (tok : JWTToken)
    (h : ∀ s ∈ l, s.session_token = tok → s.is_active = false) :
    find_active_session l tok = none := by
  cases hf : find_active_session l tok with
  | none => rfl
  | some s =>
    exfalso
    have hmem : s ∈ l := List.mem_of_find?_eq_some hf
    have hp := List.find?_some hf
    simp only [Bool.and_eq_true, beq_iff_eq] at hp
    have hfa := h s hmem hp.1
    rw [hfa] at hp
    exact Bool.false_ne_true hp.2

/-- C7: every failure cause of session validation — bad token signature,
expired token, session not found, session inactive, session expired —
produces the one identical `None` outcome, so a caller cannot tell from the
returned value which cause occurred. -/
theorem validate_session_failures_indistinguishable
    (db : SessionDB) (access_token : JWTToken) (now : Int)
    (h : (access_token.key ≠ SECRET_KEY ∨ access_token.alg ≠ ALGORITHM)
      ∨ access_token.payload.exp < now
      ∨ find_active_session db.sessions access_token = none
      ∨ (∀ s ∈ db.sessions, s.session_token = access_token → s.is_active = false)
      ∨ (∃ s, find_active_session db.sessions access_token = some s
          ∧ session_is_expired s now = true)) :
    (validate_session db access_token now).1 = none := by
  rcases h with hsig | hexp | hnf | hinact | hsexp
  · exact validate_session_none_of_verify_none _ _ _
      (verify_token_none_of_bad_signature _ _ hsig)
  · exact validate_session_none_of_verify_none _ _ _
      (verify_token_none_of_expired _ _ hexp)
  · exact validate_session_none_of_session_check _ _ _
      (fun s hs => absurd (hnf ▸ hs) (by simp))
  · exact validate_session_none_of_session_check _ _ _
      (fun s hs =>
        absurd ((find_active_session_none_of_all_inactive _ _ hinact) ▸ hs) (by simp))
  · obtain ⟨s, hf, he⟩ := hsexp
    exact validate_session_none_of_session_check _ _ _
      (fun s' hs' => by
        rw [hf] at hs'
        cases hs'
        exact he)

/-- Witness for `validate_session_failures_indistinguishable`: a token signed
with the wrong key against an empty database. -/
theorem validate_session_failures_indistinguishable_witness :
    (validate_session
        { users := fun _ => none, sessions := [] }
        { payload := { data := [], iat := 0, iss := "", aud := none,
                       token_type := "access", exp := 100 },
          key := "wrong-key", alg := "HS256" }
        0).1 = none :=
  validate_session_failures_indistinguishable
    { users := fun _ => none, sessions := [] }
    { payload := { data := [], iat := 0, iss := "", aud := none,
                   token_type := "access", exp := 100 },
      key := "wrong-key", alg := "HS256" }
    0
    (Or.inl (Or.inl (by decide)))

/-! ## Input sanitization (`app/utils/security.py`, `sanitize_input`) -/

/-- Remove every non-overlapping occurrence of `needle`, scanning left to
right — Python `str.replace(needle, "")`.  The `skip` counter walks over the
characters of a needle occurrence already recognised. -/
def removeOccAux (needle : List Char) : List Char → Nat → List Char
  | [], _ => []
  | _ :: rest, skip + 1 => removeOccAux needle rest skip
  | c :: rest, 0 =>
    if matchesFront needle (c :: rest) && !needle.isEmpty then
      removeOccAux needle rest (needle.length - 1)
    else c :: removeOccAux needle rest 0

/-- The `dangerous_chars` list of `sanitize_input`, in source order:
`<`, `>`, `"`, `'`, `&`, `javascript:`, `vbscript:`, `onload=`. -/
def dangerous_chars : List (List Char) :=
  [['<'], ['>'], [Char.ofNat 34], [Char.ofNat 39], ['&'],
   "javascript:".data, "vbscript:".data, "onload=".data]

/-- Python `str.strip()` (ASCII whitespace). -/
def pyStrip (l : List Char) : List Char :=
  ((l.dropWhile Char.isWhitespace).reverse.dropWhile Char.isWhitespace).reverse

/-- `sanitize_input`: empty in, empty out; otherwise remove each dangerous
token in order, then strip. -/
def sanitize_input (s : String) : String :=
  if s = "" then ""
  else String.mk
    (pyStrip (dangerous_chars.foldl (fun acc needle => removeOccAux needle acc 0) s.data))

/-! ## Login orchestration (`app/services/auth.py`, `AuthenticationService.authenticate_user`)

The cross-request state the service touches: the Redis rate-limit sets keyed
by string, and the user table keyed by username.  Audit events go to a sink
with no influence on control flow and are not modelled. -/

structure AuthState where
  store : String → Finset Int
  users : String → Option UserState

/-- The authentication result dictionary (the `user` entry of the success
dictionary is the first component of the returned pair). -/
structure AuthResult where
  success : Bool
  error : Option String := none
  rate_limited : Bool
  reset_time : Option Int := none
  requires_action : Option String := none
deriving Repr, DecidableEq

def updateStore (st : AuthState) (key : String) (s : Finset Int) : AuthState :=
  { st with store := fun k => if k = key then s else st.store k }

def updateUser (st : AuthState) (name : String) (u : UserState) : AuthState :=
  { st with users := fun k => if k = name then some u else st.users k }

/-- `AuthenticationService.authenticate_user` at clock `now`: sanitize
inputs, pass the per-IP rate-limit gate (`max_attempts=5`,
`window_seconds=900`, key `login:{ip}`), look up the user, evaluate
`can_login`, verify the password (a mismatch applies the lockout transition
and records a failed attempt), check the supplied password for breach, and on
full success record the login.  Returns `(user, result-dictionary)` and the
updated state. -/
def authenticate_user (st : AuthState) (now : Int)
    (username password ip_address user_agent : String) :
    (Option UserState × AuthResult) × AuthState :=
  let username := sanitize_input username
  let ip_address := sanitize_input ip_address
  let user_agent := sanitize_input user_agent
  let rate_limit_key := "login:" ++ ip_address
  let checked := check_rate_limit (st.store rate_limit_key) now 5 900
  let rate_limit_result := checked.1
  let st1 := updateStore st rate_limit_key checked.2
  if ¬ rate_limit_result.allowed then
    ((none,
      { success := false
        error := some "Too many login attempts. Please try again later."
        rate_limited := true
        reset_time := some rate_limit_result.reset_time }), st1)
  else
    match st1.users username with
    | none =>
      let st2 := updateStore st1 rate_limit_key
        (increment_failed_attempt (st1.store rate_limit_key) now)
      ((none,
        { success := false
          error := some "Incorrect username or password"
          rate_limited := false }), st2)
    | some user =>
      let login_status := can_login user now
      if ¬ login_status.can_login then
        let st2 := updateStore st1 rate_limit_key
          (increment_failed_attempt (st1.store rate_limit_key) now)
        ((none,
          { success := false
            error := login_status.reason
            rate_limited := false
            requires_action := login_status.requires_action }), st2)
      else if ¬ verify_password password user.hashed_password then
        let user2 := increment_failed_login_attempts user now
        let st2 := updateUser st1 username user2
        let st3 := updateStore st2 rate_limit_key
          (increment_failed_attempt (st2.store rate_limit_key) now)
        ((none,
          { success := false
            error := some "Incorrect username or password"
            rate_limited := false }), st3)
      else if check_password_breach password then
        ((none,
          { success := false
            error := some "Password has been compromised. Please change your password."
            rate_limited := false
            requires_action := some "change_password" }), st1)
      else
        let user2 := record_successful_login user now ip_address user_agent
        let st2 := updateUser st1 username user2
        ((some user2, { success := true, rate_limited := false }), st2)

/-! ## The `alice` end-to-end scenario (claim C2) -/

/-- Account `alice`: no prior failures, active, unlocked, fresh password. -/
def aliceUser : UserState :=
  { hashed_password := ⟨0, "Correct!Horse9x"⟩, password_changed_at := some 0 }

def c2State0 : AuthState :=
  { store := fun _ => ∅
    users := fun k => if k = "alice" then some aliceUser else none }

/-- Seven login attempts for `alice` at one-second spacing: six with a wrong
password from `10.0.0.1`, then the correct password from `10.0.0.2`. -/
def c2Attempts : List (Int × String × String) :=
  [(0, ("WrongPass!", "10.0.0.1")), (1, ("WrongPass!", "10.0.0.1")),
   (2, ("WrongPass!", "10.0.0.1")), (3, ("WrongPass!", "10.0.0.1")),
   (4, ("WrongPass!", "10.0.0.1")), (5, ("WrongPass!", "10.0.0.1")),
   (6, ("Correct!Horse9x", "10.0.0.2"))]

/-- Run `authenticate_user` over a list of `(time, password, ip)` attempts,
collecting the returned result dictionaries. -/
def c2Run (st : AuthState) (attempts : List (Int × String × String)) :
    List AuthResult × AuthState :=
  attempts.foldl
    (fun acc a =>
      let r := authenticate_user acc.2 a.1 "alice" a.2.1 a.2.2 "Mozilla"
      (acc.1 ++ [r.1.2], r.2))
    ([], st)

/-- C2 counterexample: in the claimed scenario the 2nd wrong-password attempt
does NOT return the `InvalidCredentials` outcome — the 1st failure already
locked the account (the code sets `locked_until` on every failure, not only
at a threshold), so the 2nd attempt returns the `AccountLocked` error
instead. -/
theorem authenticate_user_second_attempt_not_invalid_credentials :
    ((c2Run c2State0 c2Attempts).1.map AuthResult.error).get? 1 =
      some (some "Account is locked for 4 minutes")
    ∧ some (some "Account is locked for 4 minutes") ≠
        some (some "Incorrect username or password") := by decide

/-- C2 (amended): `alice` with no prior failures, wrong password from
`10.0.0.1` at seconds 0–5, then the correct password from `10.0.0.2` at
second 6.  The 1st attempt returns `InvalidCredentials` and locks the account
for 5 minutes (`locked_until` is set on every failure); attempts 2–4 return
`AccountLocked`; the 5th attempt — which records the 5th in-window rate-limit
entry — and the 6th return `RateLimited`; and while the lock holds, the
correct-password attempt from the different IP also returns `AccountLocked`.
The final account state holds `failed_login_attempts = 1`,
`locked_until = 300`. -/
theorem authenticate_user_progressive_lockout_trace :
    (c2Run c2State0 c2Attempts).1 =
      [{ success := false, error := some "Incorrect username or password",
         rate_limited := false },
       { success := false, error := some "Account is locked for 4 minutes",
         rate_limited := false, requires_action := some "wait" },
       { success := false, error := some "Account is locked for 4 minutes",
         rate_limited := false, requires_action := some "wait" },
       { success := false, error := some "Account is locked for 4 minutes",
         rate_limited := false, requires_action := some "wait" },
       { success := false, error := some "Too many login attempts. Please try again later.",
         rate_limited := true, reset_time := some 904 },
       { success := false, error := some "Too many login attempts. Please try again later.",
         rate_limited := true, reset_time := some 905 },
       { success := false, error := some "Account is locked for 4 minutes",
         rate_limited := false, requires_action := some "wait" }]
    ∧ (c2Run c2State0 c2Attempts).2.users "alice" =
        some { aliceUser with failed_login_attempts := 1, locked_until := some 300 } := by
  decide

/-! ## No user-existence oracle (claim C8) -/

/-- The one `InvalidCredentials` dictionary both failure branches return. -/
def invalid_credentials_result : AuthResult :=
  { success := false
    error := some "Incorrect username or password"
    rate_limited := false }

theorem authenticate_user_not_found_result (st : AuthState) (now : Int)
    (username password ip_address user_agent : String)
    (h1 : (check_rate_limit (st.store ("login:" ++ sanitize_input ip_address)) now 5 900).1.allowed
            = true)
    (h2 : st.users (sanitize_input username) = none) :
    (authenticate_user st now username password ip_address user_agent).1 =
      (none, invalid_credentials_result) := by
  simp [authenticate_user, updateStore, h1, h2, invalid_credentials_result]

theorem authenticate_user_wrong_password_result (st : AuthState) (now : Int)
    (username password ip_address user_agent : String) (u : UserState)
    (h1 : (check_rate_limit (st.store ("login:" ++ sanitize_input ip_address)) now 5 900).1.allowed
            = true)
    (h2 : st.users (sanitize_input username) = some u)
    (h3 : (can_login u now).can_login = true)
    (h4 : verify_password password u.hashed_password = false) :
    (authenticate_user st now username password ip_address user_agent).1 =
      (none, invalid_credentials_result) := by
  simp [authenticate_user, updateStore, updateUser, h1, h2, h3, h4,
    invalid_credentials_result]

/-- C8: a login attempt with an unknown username and one with a known
username but wrong password (account able to log in) return externally
identical outcomes — the same `(None, InvalidCredentials)` pair with the same
error message — so the response gives no user-existence oracle. -/
theorem authenticate_user_no_user_existence_oracle
    (stA stB : AuthState) (nowA nowB : Int)
    (userA passwordA ipA agentA userB passwordB ipB agentB : String) (u : UserState)
    (hA1 : (check_rate_limit (stA.store ("login:" ++ sanitize_input ipA)) nowA 5 900).1.allowed
             = true)
    (hA2 : stA.users (sanitize_input userA) = none)
    (hB1 : (check_rate_limit (stB.store ("login:" ++ sanitize_input ipB)) nowB 5 900).1.allowed
             = true)
    (hB2 : stB.users (sanitize_input userB) = some u)
    (hB3 : (can_login u nowB).can_login = true)
    (hB4 : verify_password passwordB u.hashed_password = false) :
    (authenticate_user stA nowA userA passwordA ipA agentA).1 =
      (authenticate_user stB nowB userB passwordB ipB agentB).1 :=
  (authenticate_user_not_found_result stA nowA userA passwordA ipA agentA hA1 hA2).trans
    (authenticate_user_wrong_password_result stB nowB userB passwordB ipB agentB u
      hB1 hB2 hB3 hB4).symm

/-- Witness for `authenticate_user_no_user_existence_oracle`: `bob` unknown
in state A; `alice` present with a wrong password supplied in state B. -/
theorem authenticate_user_no_user_existence_oracle_witness :
    (authenticate_user { store := fun _ => ∅, users := fun _ => none }
        0 "bob" "WrongPass!" "10.0.0.1" "Mozilla").1 =
      (authenticate_user c2State0 0 "alice" "WrongPass!" "10.0.0.1" "Mozilla").1 :=
  authenticate_user_no_user_existence_oracle
    { store := fun _ => ∅, users := fun _ => none } c2State0 0 0
    "bob" "WrongPass!" "10.0.0.1" "Mozilla"
    "alice" "WrongPass!" "10.0.0.1" "Mozilla" aliceUser
    (by decide) (by decide) (by decide) (by decide) (by decide) (by decide)

/-! ## Concurrent-session limit (`app/services/auth.py`, `AuthenticationService.create_user_session`)

One account's rows of the `UserSession` table, projected to what the
concurrency limit reads: a session id, `created_at`, and the active flag. -/

structure PySession where
  sid : Nat
  created_at : Int
  is_active : Bool
deriving Repr, DecidableEq

/-- The query `UserSession.user_id == user.id AND is_active == True`. -/
def active_sessions (l : List PySession) : List PySession :=
  l.filter (fun s => s.is_active)

def countActive (l : List PySession) : Nat :=
  (active_sessions l).length

/-- Python `min(active_sessions, key=lambda s: s.created_at)`: the first
element attaining the minimal key. -/
def min_by_created (best : PySession) : List PySession → PySession
  | [] => best
  | s :: rest =>
    if s.created_at < best.created_at then min_by_created s rest
    else min_by_created best rest

/-- Setting `oldest_session.is_active = False` on the row with the given id. -/
def deactivate_sid (l : List PySession) (sid : Nat) : List PySession :=
  l.map (fun s => if s.sid = sid then { s with is_active := false } else s)

/-- The session the eviction targets, when any session is active. -/
def oldest_active (l : List PySession) : Option PySession :=
  match active_sessions l with
  | [] => none
  | a :: rest => some (min_by_created a rest)

/-- `AuthenticationService.create_user_session`, restricted to one account's
session rows: if the active-session count is at or above the limit,
deactivate the oldest active session, then append the new active session
(`fresh_id` is its new primary key, `now` its `created_at`).  Python's
`min([])` would raise; that branch is unreachable while the limit is
positive. -/
def create_user_session (l : List PySession) (max_concurrent : Nat)
    (now : Int) (fresh_id : Nat) : List PySession :=
  let l2 :=
    if max_concurrent ≤ (active_sessions l).length then
      match active_sessions l with
      | [] => l
      | a :: rest => deactivate_sid l (min_by_created a rest).sid
    else l
  l2 ++ [{ sid := fresh_id, created_at := now, is_active := true }]

theorem min_by_created_mem (rest : List PySession) :
    ∀ best, min_by_created best rest ∈ best :: rest := by
  induction rest with
  | nil => intro best; simp [min_by_created]
  | cons s t ih =>
    intro best
    simp only [min_by_created]
    by_cases h : s.created_at < best.created_at
    · rw [if_pos h]
      exact List.mem_cons_of_mem best (ih s)
    · rw [if_neg h]
      rcases List.mem_cons.mp (ih best) with h1 | h1
      · rw [h1]
        exact List.mem_cons_self _ _
      · exact List.mem_cons_of_mem _ (List.mem_cons_of_mem _ h1)

theorem min_by_created_le (rest : List PySession) :
    ∀ best, ∀ x ∈ best :: rest,
      (min_by_created best rest).created_at ≤ x.created_at := by
  induction rest with
  | nil =>
    intro best x hx
    rcases List.mem_cons.mp hx with h | h
    · rw [h]
      simp [min_by_created]
    · cases h
  | cons s t ih =>
    intro best x hx
    simp only [min_by_created]
    by_cases h : s.created_at < best.created_at
    · rw [if_pos h]
      rcases List.mem_cons.mp hx with h1 | h1
      · have hle := ih s s (List.mem_cons_self s t)
        rw [h1]
        omega
      · exact ih s x h1
    · rw [if_neg h]
      rcases List.mem_cons.mp hx with h1 | h1
      · rw [h1]
        exact ih best best (List.mem_cons_self best t)
      · rcases List.mem_cons.mp h1 with h2 | h2
        · have hle := ih best best (List.mem_cons_self best t)
          rw [h2]
          omega
        · exact ih best x (List.mem_cons_of_mem _ h2)

theorem deactivate_sid_cons (hd : PySession) (t : List PySession) (sid : Nat) :
    deactivate_sid (hd :: t) sid =
      (if hd.sid = sid then { hd with is_active := false } else hd) :: deactivate_sid t sid :=
  rfl

theorem countActive_cons (s : PySession) (l : List PySession) :
    countActive (s :: l) = countActive l + (if s.is_active then 1 else 0) := by
  simp only [countActive, active_sessions, List.filter_cons]
  by_cases h : s.is_active
  · simp [h]
  · simp [h]

theorem countActive_append (l1 l2 : List PySession) :
    countActive (l1 ++ l2) = countActive l1 + countActive l2 := by
  simp [countActive, active_sessions, List.filter_append]

theorem if_false_eq_true_zero : (if (false = true) then (1 : Nat) else 0) = 0 := rfl

theorem if_true_eq_true_one : (if (true = true) then (1 : Nat) else 0) = 1 := rfl

theorem countActive_deactivate_le (sid : Nat) (l : List PySession) :
    countActive (deactivate_sid l sid) ≤ countActive l := by
  induction l with
  | nil => exact Nat.le_refl _
  | cons h t ih =>
    rw [deactivate_sid_cons, countActive_cons, countActive_cons]
    by_cases hs : h.sid = sid
    · rw [if_pos hs]
      have hno : (({ h with is_active := false } : PySession).is_active) = false := rfl
      rw [hno, if_false_eq_true_zero]
      omega
    · rw [if_neg hs]
      omega

theorem countActive_deactivate_lt (l : List PySession) (x : PySession)
    (hx : x ∈ l) (ha : x.is_active = true) :
    countActive (deactivate_sid l x.sid) < countActive l := by
  induction l with
  | nil => cases hx
  | cons h t ih =>
    rw [deactivate_sid_cons, countActive_cons, countActive_cons]
    rcases List.mem_cons.mp hx with h1 | h1
    · rw [h1] at ha
      rw [h1, if_pos rfl]
      have hno : (({ h with is_active := false } : PySession).is_active) = false := rfl
      rw [hno, ha, if_false_eq_true_zero, if_true_eq_true_one]
      have := countActive_deactivate_le h.sid t
      omega
    · have hlt := ih h1
      by_cases hs : h.sid = x.sid
      · rw [if_pos hs]
        have hno : (({ h with is_active := false } : PySession).is_active) = false := rfl
        rw [hno, if_false_eq_true_zero]
        omega
      · rw [if_neg hs]
        omega

theorem deactivate_sid_noop (l : List PySession) (sid : Nat)
    (h : ∀ s ∈ l, s.sid ≠ sid) :
    deactivate_sid l sid = l := by
  induction l with
  | nil => rfl
  | cons hd t ih =>
    rw [deactivate_sid_cons]
    rw [if_neg (h hd (List.mem_cons_self hd t))]
    rw [ih (fun s hs => h s (List.mem_cons_of_mem hd hs))]

theorem countActive_deactivate_exact (l : List PySession) (x : PySession)
    (hnd : l.Pairwise (fun a b => a.sid ≠ b.sid))
    (hx : x ∈ l) (ha : x.is_active = true) :
    countActive (deactivate_sid l x.sid) + 1 = countActive l := by
  induction l with
  | nil => cases hx
  | cons h t ih =>
    rw [List.pairwise_cons] at hnd
    rw [deactivate_sid_cons, countActive_cons, countActive_cons]
    rcases List.mem_cons.mp hx with h1 | h1
    · rw [h1] at ha
      rw [h1, if_pos rfl]
      have hnone : deactivate_sid t h.sid = t :=
        deactivate_sid_noop t h.sid (fun s hs => (hnd.1 s hs).symm)
      rw [hnone]
      have hno : (({ h with is_active := false } : PySession).is_active) = false := rfl
      rw [hno, ha, if_false_eq_true_zero, if_true_eq_true_one]
    · have hsid : h.sid ≠ x.sid := hnd.1 x h1
      rw [if_neg hsid]
      have := ih hnd.2 h1
      omega

theorem countActive_create_le (l : List PySession) (max_concurrent : Nat)
    (now : Int) (fresh_id : Nat)
    (hmax : 1 ≤ max_concurrent) (hle : countActive l ≤ max_concurrent) :
    countActive (create_user_session l max_concurrent now fresh_id) ≤ max_concurrent := by
  have hca : countActive l = (active_sessions l).length := rfl
  have hnew : countActive [{ sid := fresh_id, created_at := now, is_active := true }] = 1 := rfl
  simp only [create_user_session]
  rw [countActive_append, hnew]
  by_cases hc : max_concurrent ≤ (active_sessions l).length
  · rw [if_pos hc]
    cases hact : active_sessions l with
    | nil =>
      rw [hact] at hc
      simp only [List.length_nil] at hc
      omega
    | cons a rest =>
      show countActive (deactivate_sid l (min_by_created a rest).sid) + 1 ≤ max_concurrent
      have hm_mem : min_by_created a rest ∈ active_sessions l := by
        rw [hact]; exact min_by_created_mem rest a
      have hm := List.mem_filter.mp hm_mem
      have hlt := countActive_deactivate_lt l (min_by_created a rest) hm.1 hm.2
      omega
  · rw [if_neg hc]
    omega

/-- A sequence of session creations (`(created_at, fresh_id)` pairs) for one
account. -/
def apply_creations (l0 : List PySession) (max_concurrent : Nat)
    (creations : List (Int × Nat)) : List PySession :=
  creations.foldl (fun cur p => create_user_session cur max_concurrent p.1 p.2) l0

theorem countActive_apply_creations_le (max_concurrent : Nat)
    (hmax : 1 ≤ max_concurrent) (creations : List (Int × Nat)) :
    ∀ l0, countActive l0 ≤ max_concurrent →
      countActive (apply_creations l0 max_concurrent creations) ≤ max_concurrent := by
  induction creations with
  | nil => intro l0 h0; exact h0
  | cons c rest ih =>
    intro l0 h0
    exact ih _ (countActive_create_le l0 max_concurrent c.1 c.2 hmax h0)

/-- C5: with a positive session limit, (a) after any sequence of
session-creation operations the active-session count never exceeds
`max_concurrent_sessions`, and (b) creating a session while exactly
`max_concurrent_sessions` are active keeps the count at the limit by
deactivating exactly the single oldest active session (the first active
session attaining the minimal `created_at`) and appending the new active
session — eviction, not rejection. -/
theorem create_user_session_limit_and_eviction
    (max_concurrent : Nat) (creations : List (Int × Nat)) (l0 l : List PySession)
    (now : Int) (fresh_id : Nat)
    (hmax : 1 ≤ max_concurrent)
    (h0 : countActive l0 ≤ max_concurrent)
    (hnd : l.Pairwise (fun a b => a.sid ≠ b.sid))
    (hfull : countActive l = max_concurrent) :
    countActive (apply_creations l0 max_concurrent creations) ≤ max_concurrent
    ∧ countActive (create_user_session l max_concurrent now fresh_id) = max_concurrent
    ∧ oldest_active l ≠ none
    ∧ ((oldest_active l).getD ⟨0, 0, false⟩) ∈ l
    ∧ ((oldest_active l).getD ⟨0, 0, false⟩).is_active = true
    ∧ (active_sessions l).all
        (fun s => decide (((oldest_active l).getD ⟨0, 0, false⟩).created_at ≤ s.created_at)) = true
    ∧ create_user_session l max_concurrent now fresh_id =
        deactivate_sid l ((oldest_active l).getD ⟨0, 0, false⟩).sid ++
          [{ sid := fresh_id, created_at := now, is_active := true }] := by
  have hca : countActive l = (active_sessions l).length := rfl
  cases hact : active_sessions l with
  | nil =>
    exfalso
    rw [hact] at hca
    simp only [List.length_nil] at hca
    omega
  | cons a rest =>
    have hlen : (active_sessions l).length = max_concurrent := by
      omega
    have holdest : oldest_active l = some (min_by_created a rest) := by
      unfold oldest_active
      rw [hact]
    have hm_mem : min_by_created a rest ∈ active_sessions l := by
      rw [hact]
      exact min_by_created_mem rest a
    have hm := List.mem_filter.mp hm_mem
    have hc : max_concurrent ≤ (active_sessions l).length := by omega
    have heq : create_user_session l max_concurrent now fresh_id =
        deactivate_sid l (min_by_created a rest).sid ++
          [{ sid := fresh_id, created_at := now, is_active := true }] := by
      simp only [create_user_session]
      rw [if_pos hc, hact]
    have hexact := countActive_deactivate_exact l (min_by_created a rest) hnd hm.1 hm.2
    have hnew : countActive [{ sid := fresh_id, created_at := now, is_active := true }] = 1 := rfl
    refine ⟨countActive_apply_creations_le max_concurrent hmax creations l0 h0,
      ?_, ?_, ?_, ?_, ?_, ?_⟩
    · rw [heq, countActive_append, hnew]
      omega
    · rw [holdest]
      simp
    · rw [holdest, Option.getD_some]
      exact hm.1
    · rw [holdest, Option.getD_some]
      exact hm.2
    · rw [holdest, Option.getD_some, List.all_eq_true]
      intro s hs
      exact decide_eq_true (min_by_created_le rest a s hs)
    · rw [holdest, Option.getD_some]
      exact heq

/-- Witness for `create_user_session_limit_and_eviction`: limit 2, three
creations from empty, and a full state of two active sessions (ids 0 and 1,
the older one id 1) receiving a new session with id 7 at time 20. -/
theorem create_user_session_limit_and_eviction_witness :
    countActive (apply_creations [] 2 [(0, 0), (1, 1), (2, 2)]) ≤ 2
    ∧ countActive (create_user_session
        [⟨0, 10, true⟩, ⟨1, 5, true⟩] 2 20 7) = 2
    ∧ oldest_active [⟨0, 10, true⟩, ⟨1, 5, true⟩] ≠ none
    ∧ ((oldest_active [⟨0, 10, true⟩, ⟨1, 5, true⟩]).getD ⟨0, 0, false⟩)
        ∈ [(⟨0, 10, true⟩ : PySession), ⟨1, 5, true⟩]
    ∧ ((oldest_active [⟨0, 10, true⟩, ⟨1, 5, true⟩]).getD ⟨0, 0, false⟩).is_active = true
    ∧ (active_sessions [⟨0, 10, true⟩, ⟨1, 5, true⟩]).all
        (fun s => decide
          (((oldest_active [⟨0, 10, true⟩, ⟨1, 5, true⟩]).getD ⟨0, 0, false⟩).created_at
            ≤ s.created_at)) = true
    ∧ create_user_session [⟨0, 10, true⟩, ⟨1, 5, true⟩] 2 20 7 =
        deactivate_sid [⟨0, 10, true⟩, ⟨1, 5, true⟩]
            ((oldest_active [⟨0, 10, true⟩, ⟨1, 5, true⟩]).getD ⟨0, 0, false⟩).sid ++
          [{ sid := 7, created_at := 20, is_active := true }] :=
  create_user_session_limit_and_eviction 2 [(0, 0), (1, 1), (2, 2)] []
    [⟨0, 10, true⟩, ⟨1, 5, true⟩] 20 7
    (by decide) (by decide) (by decide) (by decide)

end Cloud
